import Mathlib

/-!
# Verification of the Tors Community API store (src/index.js)

A shallow embedding of the Express + better-sqlite3 service in `src/index.js`.
The SQLite database (tables `tasks`, `categories`, `config` and the
`sqlite_sequence` counters behind `AUTOINCREMENT`) is modelled as an explicit
`Store` value; every route handler becomes a pure function from the request
body and the store to a response and a new store.

JSON body fields are three-valued (`JVal`): absent from the body
(JS `undefined`), explicit JSON `null`, or a string.  better-sqlite3 can bind
only numbers, strings, bigints, buffers and `null` as statement parameters;
binding a JS `undefined` makes `Statement.run` throw a `TypeError`, which
Express's default error handler turns into a 500 response with the store
unchanged.  Likewise an SQL constraint violation (e.g. writing `NULL` into a
`NOT NULL` column) makes `run` throw an `SqliteError`, also surfacing as 500.
Both are modelled as a 500 response that leaves the store untouched.
-/

set_option autoImplicit false

namespace Tors

/-- A JSON body field as seen after `express.json()` and destructuring:
absent (`undefined`), explicit `null`, or a string. -/
inductive JVal where
  | undef : JVal
  | null : JVal
  | str : String → JVal
deriving Repr, DecidableEq

/-- JS truthiness test `!v` used by the creation handlers: `undefined`,
`null` and the empty string are all falsy. -/
def JVal.falsy : JVal → Bool
  | .undef => true
  | .null => true
  | .str s => s == ""

/-- The string content of a field (used only after a falsiness check has
ruled out `undef`/`null`). -/
def JVal.jstr : JVal → String
  | .undef => ""
  | .null => ""
  | .str s => s

/-- SQL `COALESCE(?, col)` for a bound parameter: SQL `NULL` keeps the column's
prior value, a bound string replaces it.  (`undef` never reaches SQL: the
driver rejects it before the statement runs.) -/
def JVal.coalesce : JVal → String → String
  | .undef, old => old
  | .null, old => old
  | .str s, _ => s

/-- A row of the `tasks` table: `name`, `description`, `eta` are `NOT NULL`,
`category_id` is nullable. -/
structure Task where
  id : Nat
  name : String
  description : String
  eta : String
  category_id : Option Nat
deriving Repr, DecidableEq

/-- A row of the `categories` table. -/
structure Category where
  id : Nat
  name : String
deriving Repr, DecidableEq

/-- A row of the singleton `config` table (`CHECK (id = 1)`). -/
structure ConfigRow where
  id : Nat
  theme : String
deriving Repr, DecidableEq

/-- The database: the three tables plus the `sqlite_sequence` counters that
back `AUTOINCREMENT` for `tasks` and `categories` (the largest id ever
handed out; never decreased, even by deletes). -/
structure Store where
  tasks : List Task
  categories : List Category
  config : List ConfigRow
  taskSeq : Nat
  catSeq : Nat
deriving Repr, DecidableEq

/-- An HTTP response: status code and the `message` of the JSON body. -/
structure Resp where
  status : Nat
  message : String
deriving Repr, DecidableEq

/-- The database file before any schema initialization. -/
def emptyStore : Store := ⟨[], [], [], 0, 0⟩

/-- The startup `db.exec`: `CREATE TABLE IF NOT EXISTS …` plus
`INSERT OR IGNORE INTO config (id, theme) VALUES (1, 'Desert')`. -/
def initSchema (s : Store) : Store :=
  if s.config.any (fun r => r.id == 1) then s
  else { s with config := s.config ++ [⟨1, "Desert"⟩] }

/-- The store right after first startup. -/
def initStore : Store := initSchema emptyStore

/-- Query `SELECT * FROM tasks WHERE id = ?`. -/
def findTask (s : Store) (id : Nat) : Option Task :=
  s.tasks.find? (fun t => t.id == id)

/-- Query `SELECT * FROM categories WHERE id = ?`. -/
def findCategory (s : Store) (id : Nat) : Option Category :=
  s.categories.find? (fun c => c.id == id)

/-- Query of `GET /theme`: `SELECT theme FROM config WHERE id = 1`. -/
def getTheme (s : Store) : Option String :=
  (s.config.find? (fun r => r.id == 1)).map ConfigRow.theme

/-- A row of the `GET /tasks` result: the `LEFT JOIN` resolves the category
name, `NULL` when `category_id` is null or dangling. -/
structure TaskView where
  id : Nat
  name : String
  description : String
  eta : String
  category : Option String
deriving Repr, DecidableEq

/-- Route `GET /tasks`: `SELECT tasks.*, categories.name AS category FROM tasks
LEFT JOIN categories ON tasks.category_id = categories.id`. -/
def listTasks (s : Store) : List TaskView :=
  s.tasks.map (fun t =>
    ⟨t.id, t.name, t.description, t.eta,
      (t.category_id.bind (fun cid => findCategory s cid)).map Category.name⟩)

/-- Route `GET /categories`: `SELECT * FROM categories`. -/
def listCategories (s : Store) : List Category :=
  s.categories

/-- Route `POST /tasks`: presence/emptiness check with JS truthiness, then
`INSERT INTO tasks (name, description, eta) VALUES (?, ?, ?)`; returns
`result.lastInsertRowid`. -/
def createTask (s : Store) (name description eta : JVal) :
    Resp × Option Nat × Store :=
  if name.falsy || description.falsy || eta.falsy then
    (⟨400, "Missing required fields: name, description, eta."⟩, none, s)
  else
    let id := s.taskSeq + 1
    (⟨201, "Task created successfully!"⟩, some id,
      { s with
        tasks := s.tasks ++ [⟨id, name.jstr, description.jstr, eta.jstr, none⟩],
        taskSeq := id })

/-- Route `POST /categories`. -/
def createCategory (s : Store) (name : JVal) : Resp × Option Nat × Store :=
  if name.falsy then
    (⟨400, "Category name is required."⟩, none, s)
  else
    let id := s.catSeq + 1
    (⟨201, "Category created successfully!"⟩, some id,
      { s with categories := s.categories ++ [⟨id, name.jstr⟩], catSeq := id })

/-- Route `GET /categories/:id`. -/
def getCategory (s : Store) (id : Nat) : Resp × Store :=
  match findCategory s id with
  | none => (⟨404, "Category not found."⟩, s)
  | some c => (⟨200, c.name⟩, s)

/-- Route `PUT /tasks/:id`: 404 if the task is absent; otherwise
`stmt.run(name, description, eta, id)` on the `COALESCE` update.  If any of
the three destructured body fields is `undefined`, the driver rejects the
binding and the request fails with 500, the store unchanged. -/
def updateTask (s : Store) (id : Nat) (name description eta : JVal) :
    Resp × Store :=
  match findTask s id with
  | none => (⟨404, "Task not found."⟩, s)
  | some _ =>
    if name == .undef || description == .undef || eta == .undef then
      (⟨500, "TypeError: SQLite3 can only bind numbers, strings, bigints, buffers, and null"⟩, s)
    else
      (⟨200, "Task updated successfully!"⟩,
        { s with
          tasks := s.tasks.map (fun t =>
            if t.id == id then
              { t with
                name := name.coalesce t.name,
                description := description.coalesce t.description,
                eta := eta.coalesce t.eta }
            else t) })

/-- Route `PUT /categories/:id`: 404 if absent; otherwise
`UPDATE categories SET name = ? WHERE id = ?` with no validation of `name`.
An `undefined` body field cannot be bound (500); an explicit `null` binds
SQL `NULL`, which violates the column's `NOT NULL` constraint (500).  Any
string, the empty string included, succeeds. -/
def updateCategory (s : Store) (id : Nat) (name : JVal) : Resp × Store :=
  match findCategory s id with
  | none => (⟨404, "Category not found."⟩, s)
  | some _ =>
    match name with
    | .undef =>
      (⟨500, "TypeError: SQLite3 can only bind numbers, strings, bigints, buffers, and null"⟩, s)
    | .null =>
      (⟨500, "SqliteError: NOT NULL constraint failed: categories.name"⟩, s)
    | .str n =>
      (⟨200, "Category updated successfully!"⟩,
        { s with
          categories := s.categories.map (fun c =>
            if c.id == id then { c with name := n } else c) })

/-- Route `DELETE /tasks/:id`. -/
def deleteTask (s : Store) (id : Nat) : Resp × Store :=
  match findTask s id with
  | none => (⟨404, "Task not found."⟩, s)
  | some _ =>
    (⟨200, "Task deleted successfully!"⟩,
      { s with tasks := s.tasks.filter (fun t => t.id != id) })

/-- Route `DELETE /categories/:id`: 404 if absent; otherwise delete the row and
`UPDATE tasks SET category_id = NULL WHERE category_id = ?`. -/
def deleteCategory (s : Store) (id : Nat) : Resp × Store :=
  match findCategory s id with
  | none => (⟨404, "Category not found."⟩, s)
  | some _ =>
    (⟨200, "Category deleted successfully!"⟩,
      { s with
        categories := s.categories.filter (fun c => c.id != id),
        tasks := s.tasks.map (fun t =>
          if t.category_id == some id then { t with category_id := none } else t) })

/-- Route `POST /tasks/:id/assign-category`: both rows are looked up first, then
the task check precedes the category check.  A missing `categoryId` body
field cannot be bound by the driver (500). -/
def assignCategory (s : Store) (taskId : Nat) (categoryId : Option Nat) :
    Resp × Store :=
  match categoryId with
  | none =>
    (⟨500, "TypeError: SQLite3 can only bind numbers, strings, bigints, buffers, and null"⟩, s)
  | some cid =>
    let task := findTask s taskId
    let category := findCategory s cid
    if task.isNone then (⟨404, "Crud! Task not found."⟩, s)
    else if category.isNone then (⟨404, "Category not found."⟩, s)
    else
      (⟨200, "Aye aye, category assigned successfully!"⟩,
        { s with
          tasks := s.tasks.map (fun t =>
            if t.id == taskId then { t with category_id := some cid } else t) })

/-- The enumerated theme set of `POST /theme`. -/
def validThemes : List String := ["Desert", "Oasis", "Forest", "Snow"]

/-- Route `POST /theme`: `validThemes.includes(newTheme)` (false for a non-string
body field), then `UPDATE config SET theme = ? WHERE id = 1`. -/
def setTheme (s : Store) (newTheme : JVal) : Resp × Store :=
  match newTheme with
  | .str t =>
    if t ∈ validThemes then
      (⟨200, "Ahoy! Theme changed to " ++ t ++ "."⟩,
        { s with
          config := s.config.map (fun r =>
            if r.id == 1 then { r with theme := t } else r) })
    else (⟨400, "Invalid theme."⟩, s)
  | _ => (⟨400, "Invalid theme."⟩, s)

/-- Route `GET /theme`: crashes only if the config row is missing,
which never happens after `initialize`; modelled with `""` as the
unreachable fallback. -/
def getThemeRoute (s : Store) : Resp × Store :=
  (⟨200, (getTheme s).getD ""⟩, s)

/-- One HTTP request to the service, after routing and `express.json()`. -/
inductive Request where
  | getTasksR
  | getCategoriesR
  | getCategoryR (id : Nat)
  | postTask (name description eta : JVal)
  | postCategory (name : JVal)
  | putTask (id : Nat) (name description eta : JVal)
  | putCategory (id : Nat) (name : JVal)
  | deleteTaskR (id : Nat)
  | deleteCategoryR (id : Nat)
  | assignCategoryR (taskId : Nat) (categoryId : Option Nat)
  | postTheme (newTheme : JVal)
  | getThemeR
deriving Repr, DecidableEq

/-- Route dispatch: each endpoint performs its single store operation. -/
def dispatch (req : Request) (s : Store) : Resp × Store :=
  match req with
  | .getTasksR => (⟨200, "tasks"⟩, s)
  | .getCategoriesR => (⟨200, "categories"⟩, s)
  | .getCategoryR id => getCategory s id
  | .postTask n d e => let r := createTask s n d e; (r.1, r.2.2)
  | .postCategory n => let r := createCategory s n; (r.1, r.2.2)
  | .putTask id n d e => updateTask s id n d e
  | .putCategory id n => updateCategory s id n
  | .deleteTaskR id => deleteTask s id
  | .deleteCategoryR id => deleteCategory s id
  | .assignCategoryR tid cid => assignCategory s tid cid
  | .postTheme t => setTheme s t
  | .getThemeR => getThemeRoute s

/-- The `api-key` middleware (`app.use`, registered before every route):
a missing or empty `process.env.API_KEY` fails the request with 500; a
client header not strictly equal to it fails with 403; only then does the
route handler touch the store. -/
def handleRequest (serverKey clientKey : Option String) (req : Request)
    (s : Store) : Resp × Store :=
  match serverKey with
  | none => (⟨500, "Server configuration error."⟩, s)
  | some sk =>
    if sk == "" then (⟨500, "Server configuration error."⟩, s)
    else if clientKey ≠ some sk then (⟨403, "Forbidden: Invalid API Key."⟩, s)
    else dispatch req s

/-- Run a sequence of requests against a store (every state reachable from
startup is `execReqs initStore reqs` for some request list). -/
def execReqs (s : Store) : List Request → Store
  | [] => s
  | req :: reqs => execReqs (dispatch req s).2 reqs

/-- The boolean condition under which the `api-key` middleware rejects a
request: the server key is unset or empty, or the client header differs. -/
def gateBlocks (serverKey clientKey : Option String) : Bool :=
  match serverKey with
  | none => true
  | some sk => sk == "" || clientKey != some sk

/-- A concrete store used to exercise the theorems on explicit inputs:
two tasks, each referencing one of two categories. -/
def sampleStore : Store :=
  ⟨[⟨1, "write docs", "draft the readme", "friday", some 1⟩,
    ⟨2, "fix build", "ci is red", "monday", some 2⟩],
   [⟨1, "Work"⟩, ⟨2, "Play"⟩],
   [⟨1, "Desert"⟩], 2, 2⟩

/-- A concrete store with a single category and no tasks. -/
def catOnlyStore : Store := ⟨[], [⟨1, "Work"⟩], [⟨1, "Desert"⟩], 0, 1⟩

/-- A concrete request trace: create one task, then delete it (so its id 1
has been used but is no longer present). -/
def sampleReqs : List Request :=
  [.postTask (.str "old task") (.str "gone soon") (.str "yesterday"),
   .deleteTaskR 1]

/-! ## Invariants of reachable stores -/

/-- The `config` table holds exactly the row `(1, t)` for some valid theme. -/
def ConfigInv (s : Store) : Prop :=
  ∃ t, s.config = [⟨1, t⟩] ∧ t ∈ validThemes

/-- Every task id ever handed out is at most the sequence counter. -/
def TaskIdsBound (s : Store) : Prop :=
  ∀ t ∈ s.tasks, t.id ≤ s.taskSeq

theorem configInv_initStore : ConfigInv initStore :=
  ⟨"Desert", rfl, by decide⟩

theorem taskIdsBound_initStore : TaskIdsBound initStore := by
  intro t ht
  simp [initStore, initSchema, emptyStore] at ht

theorem configInv_dispatch (req : Request) (s : Store) (h : ConfigInv s) :
    ConfigInv (dispatch req s).2 := by
  obtain ⟨t, hc, ht⟩ := h
  cases req <;>
    simp only [dispatch, getCategory, createTask, createCategory, updateTask,
      updateCategory, deleteTask, deleteCategory, assignCategory, setTheme,
      getThemeRoute] <;>
    (repeat' split) <;>
    first
      | exact ⟨t, hc, ht⟩
      | (rename_i v hmem
         exact ⟨v, by simp [hc], hmem⟩)

theorem taskSeq_le_dispatch (req : Request) (s : Store) :
    s.taskSeq ≤ (dispatch req s).2.taskSeq := by
  cases req <;>
    simp only [dispatch, getCategory, createTask, createCategory, updateTask,
      updateCategory, deleteTask, deleteCategory, assignCategory, setTheme,
      getThemeRoute] <;>
    (repeat' split) <;>
    first
      | exact Nat.le_refl _
      | exact Nat.le_succ _

theorem taskIdsBound_dispatch (req : Request) (s : Store) (h : TaskIdsBound s) :
    TaskIdsBound (dispatch req s).2 := by
  cases req with
  | getTasksR => exact h
  | getCategoriesR => exact h
  | getThemeR => exact h
  | getCategoryR id =>
    simp only [dispatch, getCategory]
    split <;> exact h
  | postTask n d e =>
    simp only [dispatch, createTask]
    split
    · exact h
    · intro t ht
      rcases List.mem_append.1 ht with h1 | h1
      · exact Nat.le_succ_of_le (h t h1)
      · rw [List.mem_singleton.1 h1]
  | postCategory n =>
    simp only [dispatch, createCategory]
    split <;> exact h
  | putTask id n d e =>
    simp only [dispatch, updateTask]
    split
    · exact h
    · split
      · exact h
      · intro t ht
        obtain ⟨u, hu, rfl⟩ := List.mem_map.1 ht
        have hb := h u hu
        split <;> exact hb
  | putCategory id n =>
    simp only [dispatch, updateCategory]
    (repeat' split) <;> exact h
  | deleteTaskR id =>
    simp only [dispatch, deleteTask]
    split
    · exact h
    · intro t ht
      exact h t (List.mem_filter.1 ht).1
  | deleteCategoryR id =>
    simp only [dispatch, deleteCategory]
    split
    · exact h
    · intro t ht
      obtain ⟨u, hu, rfl⟩ := List.mem_map.1 ht
      have hb := h u hu
      split <;> exact hb
  | assignCategoryR tid cid =>
    simp only [dispatch, assignCategory]
    split
    · exact h
    · split
      · exact h
      · split
        · exact h
        · intro t ht
          obtain ⟨u, hu, rfl⟩ := List.mem_map.1 ht
          have hb := h u hu
          split <;> exact hb
  | postTheme v =>
    simp only [dispatch, setTheme]
    (repeat' split) <;> exact h

theorem execReqs_append (s : Store) (l₁ l₂ : List Request) :
    execReqs s (l₁ ++ l₂) = execReqs (execReqs s l₁) l₂ := by
  induction l₁ generalizing s with
  | nil => simp [execReqs]
  | cons req l ih => simp [execReqs, ih]

theorem taskSeq_le_execReqs (s : Store) (l : List Request) :
    s.taskSeq ≤ (execReqs s l).taskSeq := by
  induction l generalizing s with
  | nil => exact Nat.le_refl _
  | cons req l ih =>
    exact Nat.le_trans (taskSeq_le_dispatch req s) (ih (dispatch req s).2)

theorem configInv_reachable (reqs : List Request) :
    ConfigInv (execReqs initStore reqs) := by
  have key : ∀ l s, ConfigInv s → ConfigInv (execReqs s l) := by
    intro l
    induction l with
    | nil => intro s hs; exact hs
    | cons req l ih => intro s hs; exact ih _ (configInv_dispatch req s hs)
  exact key reqs initStore configInv_initStore

theorem taskIdsBound_reachable (reqs : List Request) :
    TaskIdsBound (execReqs initStore reqs) := by
  have key : ∀ l s, TaskIdsBound s → TaskIdsBound (execReqs s l) := by
    intro l
    induction l with
    | nil => intro s hs; exact hs
    | cons req l ih => intro s hs; exact ih _ (taskIdsBound_dispatch req s hs)
  exact key reqs initStore taskIdsBound_initStore

/-! ## The claims -/

/-- Claim C1: for every category id present in the store, `deleteCategory id`
removes that category and, in the same step, nulls `category_id` on every
task referencing it; afterwards the category is absent from `listCategories`
and no task references it.  For an absent id it fails with 404 and the store
is unchanged. -/
theorem deleteCategory_cascade_spec (s : Store) (id : Nat) :
    (findCategory s id = none →
      deleteCategory s id = (⟨404, "Category not found."⟩, s)) ∧
    ((findCategory s id).isSome = true →
      deleteCategory s id =
        (⟨200, "Category deleted successfully!"⟩,
          { s with
            categories := s.categories.filter (fun c => c.id != id),
            tasks := s.tasks.map (fun t =>
              if t.category_id == some id then { t with category_id := none }
              else t) }) ∧
      id ∉ (listCategories (deleteCategory s id).2).map Category.id ∧
      ∀ t ∈ (deleteCategory s id).2.tasks, t.category_id ≠ some id) := by
  constructor
  · intro hf
    simp [deleteCategory, hf]
  · intro hf
    obtain ⟨c, hc⟩ := Option.isSome_iff_exists.1 hf
    have h200 : deleteCategory s id =
        (⟨200, "Category deleted successfully!"⟩,
          { s with
            categories := s.categories.filter (fun c => c.id != id),
            tasks := s.tasks.map (fun t =>
              if t.category_id == some id then { t with category_id := none }
              else t) }) := by
      simp [deleteCategory, hc]
    refine ⟨h200, ?_, ?_⟩
    · rw [h200]
      simp [listCategories, List.mem_filter]
    · intro t ht
      rw [h200] at ht
      obtain ⟨u, _, rfl⟩ := List.mem_map.1 ht
      by_cases hcid : u.category_id = some id <;> simp [hcid]

/-- Claim C9: `deleteTask id` fails with 404 and changes nothing when the
task is absent; otherwise it removes exactly that task: other tasks, all
categories, the config row and the sequence counters are untouched. -/
theorem deleteTask_frame_spec (s : Store) (id : Nat) :
    (findTask s id = none →
      deleteTask s id = (⟨404, "Task not found."⟩, s)) ∧
    ((findTask s id).isSome = true →
      deleteTask s id =
        (⟨200, "Task deleted successfully!"⟩,
          { s with tasks := s.tasks.filter (fun t => t.id != id) }) ∧
      (deleteTask s id).2.categories = s.categories ∧
      (deleteTask s id).2.config = s.config ∧
      (deleteTask s id).2.taskSeq = s.taskSeq ∧
      (deleteTask s id).2.catSeq = s.catSeq ∧
      (∀ t ∈ s.tasks, t.id ≠ id → t ∈ (deleteTask s id).2.tasks) ∧
      (∀ t ∈ (deleteTask s id).2.tasks, t ∈ s.tasks ∧ t.id ≠ id)) := by
  constructor
  · intro hf
    simp [deleteTask, hf]
  · intro hf
    obtain ⟨u, hu⟩ := Option.isSome_iff_exists.1 hf
    have h200 : deleteTask s id =
        (⟨200, "Task deleted successfully!"⟩,
          { s with tasks := s.tasks.filter (fun t => t.id != id) }) := by
      simp [deleteTask, hu]
    refine ⟨h200, by rw [h200], by rw [h200], by rw [h200], by rw [h200],
      ?_, ?_⟩
    · intro t ht hne
      rw [h200]
      exact List.mem_filter.2 ⟨ht, by simpa using hne⟩
    · intro t ht
      rw [h200] at ht
      have := List.mem_filter.1 ht
      exact ⟨this.1, by simpa using this.2⟩

/-- Claim C5: `assignCategory taskId categoryId` fails with 404 ("task not
found") when the task is absent and 404 ("category not found") when the
category is absent, leaving the store unchanged in both cases; when both
exist it sets the task's `category_id` to an id that references an existing
category at that moment. -/
theorem assignCategory_spec (s : Store) (taskId cid : Nat) :
    (findTask s taskId = none →
      assignCategory s taskId (some cid) = (⟨404, "Crud! Task not found."⟩, s)) ∧
    ((findTask s taskId).isSome = true → findCategory s cid = none →
      assignCategory s taskId (some cid) = (⟨404, "Category not found."⟩, s)) ∧
    ((findTask s taskId).isSome = true → (findCategory s cid).isSome = true →
      assignCategory s taskId (some cid) =
        (⟨200, "Aye aye, category assigned successfully!"⟩,
          { s with tasks := s.tasks.map (fun t =>
              if t.id == taskId then { t with category_id := some cid }
              else t) }) ∧
      cid ∈ (listCategories s).map Category.id) := by
  refine ⟨?_, ?_, ?_⟩
  · intro hf
    simp [assignCategory, hf]
  · intro ht hf
    obtain ⟨u, hu⟩ := Option.isSome_iff_exists.1 ht
    simp [assignCategory, hu, hf]
  · intro ht hcat
    obtain ⟨u, hu⟩ := Option.isSome_iff_exists.1 ht
    obtain ⟨c, hcEq⟩ := Option.isSome_iff_exists.1 hcat
    refine ⟨by simp [assignCategory, hu, hcEq], ?_⟩
    have hmem : c ∈ s.categories := List.mem_of_find?_eq_some hcEq
    have hbeq := List.find?_some hcEq
    exact List.mem_map.2 ⟨c, hmem, by simpa using hbeq⟩

/-- Claim C10: when both the task and the category are absent,
`assignCategory` reports the task-not-found failure, not the
category-not-found one: the task existence check takes precedence. -/
theorem assignCategory_task_check_precedence (s : Store) (taskId cid : Nat)
    (h1 : findTask s taskId = none) (h2 : findCategory s cid = none) :
    assignCategory s taskId (some cid) = (⟨404, "Crud! Task not found."⟩, s) ∧
    (assignCategory s taskId (some cid)).1.message ≠ "Category not found." := by
  have h404 : assignCategory s taskId (some cid) =
      (⟨404, "Crud! Task not found."⟩, s) := by
    simp [assignCategory, h1]
  exact ⟨h404, by rw [h404]; simp⟩

/-- Claim C8 (counterexample to the claim as stated): on a store whose
category 1 exists, updating it with the `name` field absent from the body
does not succeed with 200 — the driver cannot bind the undefined value, the
request fails with 500 and the store is unchanged. -/
theorem updateCategory_absent_name_counterexample :
    (findCategory catOnlyStore 1).isSome = true ∧
    ¬ (updateCategory catOnlyStore 1 JVal.undef).1.status = 200 ∧
    (updateCategory catOnlyStore 1 JVal.undef).1.status = 500 ∧
    (updateCategory catOnlyStore 1 JVal.undef).2 = catOnlyStore := by
  decide

/-- Claim C8 (amended): `updateCategory id name` fails with 404 when no
category with `id` exists; when it exists, any supplied string — the empty
string included — is written without validation (200); a missing or
explicitly null `name`, however, makes the request fail with 500 (the
driver rejects an undefined binding, and SQL `NULL` violates the column's
`NOT NULL` constraint), leaving the store unchanged. -/
theorem updateCategory_lax_spec (s : Store) (id : Nat) (n : String) :
    (findCategory s id = none →
      ∀ v, updateCategory s id v = (⟨404, "Category not found."⟩, s)) ∧
    ((findCategory s id).isSome = true →
      updateCategory s id (.str n) =
        (⟨200, "Category updated successfully!"⟩,
          { s with categories := s.categories.map (fun c =>
              if c.id == id then { c with name := n } else c) })) ∧
    ((findCategory s id).isSome = true →
      ∀ v, v = JVal.undef ∨ v = JVal.null →
        (updateCategory s id v).1.status = 500 ∧
        (updateCategory s id v).2 = s) := by
  refine ⟨?_, ?_, ?_⟩
  · intro hf v
    simp [updateCategory, hf]
  · intro hf
    obtain ⟨c, hc⟩ := Option.isSome_iff_exists.1 hf
    simp [updateCategory, hc]
  · intro hf v hv
    obtain ⟨c, hc⟩ := Option.isSome_iff_exists.1 hf
    rcases hv with rfl | rfl <;> simp [updateCategory, hc]

/-- Claim C4 (the code at the failing input): on a task that exists, a
partial update whose body omits any of the three fields does not apply the
`COALESCE` semantics — better-sqlite3 refuses to bind the undefined value,
the request fails with 500 and the store is unchanged. -/
theorem updateTask_undefined_binding_bug (s : Store) (id : Nat)
    (n d e : JVal) (h1 : (findTask s id).isSome = true)
    (h2 : n = JVal.undef ∨ d = JVal.undef ∨ e = JVal.undef) :
    updateTask s id n d e =
      (⟨500, "TypeError: SQLite3 can only bind numbers, strings, bigints, buffers, and null"⟩,
        s) := by
  obtain ⟨u, hu⟩ := Option.isSome_iff_exists.1 h1
  have hcond : (n == JVal.undef || d == JVal.undef || e == JVal.undef) = true := by
    rcases h2 with rfl | rfl | rfl <;> simp
  simp [updateTask, hu, hcond]

/-- Claim C6: for every theme in the enumerated set, `setTheme` succeeds
with 200 and a subsequent `getTheme` returns exactly that theme, in every
reachable store. -/
theorem setTheme_getTheme_roundtrip (reqs : List Request) (t : String)
    (h : t ∈ validThemes) :
    (setTheme (execReqs initStore reqs) (.str t)).1 =
      ⟨200, "Ahoy! Theme changed to " ++ t ++ "."⟩ ∧
    getTheme (setTheme (execReqs initStore reqs) (.str t)).2 = some t := by
  obtain ⟨u, hc, _⟩ := configInv_reachable reqs
  constructor
  · simp [setTheme, h]
  · simp [setTheme, h, getTheme, hc]

/-- Claim C2: in every store reachable from initialization, the config
table has exactly one row, its id is 1 and its theme lies in
{Desert, Oasis, Forest, Snow}; and `setTheme` with a theme outside the set
fails with 400 leaving the store unchanged. -/
theorem config_singleton_invariant (reqs : List Request) (s : Store)
    (t : String) (h : t ∉ validThemes) :
    ConfigInv (execReqs initStore reqs) ∧
    setTheme s (.str t) = (⟨400, "Invalid theme."⟩, s) :=
  ⟨configInv_reachable reqs, by simp [setTheme, h]⟩

/-- Claim C3: `createTask` fails with 400 and inserts no row whenever any
of the three fields is missing or empty; when all three are non-empty it
appends exactly one task with null `category_id` and returns a generated id
distinct from every id present in any earlier reachable state. -/
theorem createTask_spec (reqs : List Request) (name description eta : JVal) :
    ((name.falsy || description.falsy || eta.falsy) = true →
      createTask (execReqs initStore reqs) name description eta =
        (⟨400, "Missing required fields: name, description, eta."⟩, none,
          execReqs initStore reqs)) ∧
    ((name.falsy || description.falsy || eta.falsy) = false →
      createTask (execReqs initStore reqs) name description eta =
        (⟨201, "Task created successfully!"⟩,
          some ((execReqs initStore reqs).taskSeq + 1),
          { execReqs initStore reqs with
            tasks := (execReqs initStore reqs).tasks ++
              [⟨(execReqs initStore reqs).taskSeq + 1, name.jstr,
                description.jstr, eta.jstr, none⟩],
            taskSeq := (execReqs initStore reqs).taskSeq + 1 }) ∧
      ∀ pre post, reqs = pre ++ post →
        ∀ t ∈ (execReqs initStore pre).tasks,
          t.id ≠ (execReqs initStore reqs).taskSeq + 1) := by
  constructor
  · intro hf
    simp [createTask, hf]
  · intro hf
    refine ⟨by simp [createTask, hf], ?_⟩
    intro pre post hsplit t ht
    have h1 : t.id ≤ (execReqs initStore pre).taskSeq :=
      taskIdsBound_reachable pre t ht
    have h2 : (execReqs initStore pre).taskSeq ≤
        (execReqs initStore reqs).taskSeq := by
      rw [hsplit, execReqs_append]
      exact taskSeq_le_execReqs _ post
    omega

/-- Claim C7: the api-key gate runs before any store access: with an
unconfigured (missing or empty) server key the request fails with 500, with
a mismatching client key it fails with 403, and in both cases the store is
neither read (the response is independent of it) nor written. -/
theorem api_key_gate_blocks_store_access (serverKey clientKey : Option String)
    (req : Request) (s s' : Store) (h : gateBlocks serverKey clientKey = true) :
    (handleRequest serverKey clientKey req s).1 =
      (handleRequest serverKey clientKey req s').1 ∧
    (handleRequest serverKey clientKey req s).2 = s ∧
    ((serverKey = none ∨ serverKey = some "") →
      (handleRequest serverKey clientKey req s).1 =
        ⟨500, "Server configuration error."⟩) ∧
    (∀ k, serverKey = some k → k ≠ "" →
      (handleRequest serverKey clientKey req s).1 =
        ⟨403, "Forbidden: Invalid API Key."⟩) := by
  cases serverKey with
  | none => simp [handleRequest]
  | some k =>
    by_cases hk : k = ""
    · subst hk
      simp [handleRequest]
    · have hck : clientKey ≠ some k := by
        have hkb : (k == "") = false := beq_eq_false_iff_ne.2 hk
        simp only [gateBlocks, hkb, Bool.false_or] at h
        exact bne_iff_ne.1 h
      simp [handleRequest, hk, hck]

/-! ## Witnesses: each claim theorem applied at a concrete input -/

/-- Witness for claim C1: deleting category 1 of `sampleStore` nulls the
reference of the task that pointed at it and removes the category. -/
theorem deleteCategory_cascade_spec_witness :
    (findCategory sampleStore 1).isSome = true ∧
    deleteCategory sampleStore 1 =
      (⟨200, "Category deleted successfully!"⟩,
        ⟨[⟨1, "write docs", "draft the readme", "friday", none⟩,
          ⟨2, "fix build", "ci is red", "monday", some 2⟩],
         [⟨2, "Play"⟩], [⟨1, "Desert"⟩], 2, 2⟩) :=
  ⟨by decide, ((deleteCategory_cascade_spec sampleStore 1).2 (by decide)).1⟩

/-- Witness for claim C9: deleting task 2 of `sampleStore` removes exactly
that task and leaves the categories untouched. -/
theorem deleteTask_frame_spec_witness :
    (findTask sampleStore 2).isSome = true ∧
    deleteTask sampleStore 2 =
      (⟨200, "Task deleted successfully!"⟩,
        ⟨[⟨1, "write docs", "draft the readme", "friday", some 1⟩],
         [⟨1, "Work"⟩, ⟨2, "Play"⟩], [⟨1, "Desert"⟩], 2, 2⟩) ∧
    (deleteTask sampleStore 2).2.categories = sampleStore.categories := by
  have h := (deleteTask_frame_spec sampleStore 2).2 (by decide)
  exact ⟨by decide, h.1, h.2.1⟩

/-- Witness for claim C5: assigning existing category 2 to existing task 1
succeeds and rewrites that task's `category_id`. -/
theorem assignCategory_spec_witness :
    (findTask sampleStore 1).isSome = true ∧
    (findCategory sampleStore 2).isSome = true ∧
    assignCategory sampleStore 1 (some 2) =
      (⟨200, "Aye aye, category assigned successfully!"⟩,
        ⟨[⟨1, "write docs", "draft the readme", "friday", some 2⟩,
          ⟨2, "fix build", "ci is red", "monday", some 2⟩],
         [⟨1, "Work"⟩, ⟨2, "Play"⟩], [⟨1, "Desert"⟩], 2, 2⟩) ∧
    2 ∈ (listCategories sampleStore).map Category.id := by
  have h := (assignCategory_spec sampleStore 1 2).2.2 (by decide) (by decide)
  exact ⟨by decide, by decide, h.1, h.2⟩

/-- Witness for claim C10: with task 99 and category 99 both absent, the
task-not-found message is the one reported. -/
theorem assignCategory_task_check_precedence_witness :
    findTask sampleStore 99 = none ∧ findCategory sampleStore 99 = none ∧
    assignCategory sampleStore 99 (some 99) =
      (⟨404, "Crud! Task not found."⟩, sampleStore) := by
  have h := assignCategory_task_check_precedence sampleStore 99 99
    (by decide) (by decide)
  exact ⟨by decide, by decide, h.1⟩

/-- Witness for claim C8 (amended): updating category 1 with an empty name
succeeds with 200; with an explicit null name the request fails with 500. -/
theorem updateCategory_lax_spec_witness :
    (findCategory catOnlyStore 1).isSome = true ∧
    updateCategory catOnlyStore 1 (.str "") =
      (⟨200, "Category updated successfully!"⟩,
        ⟨[], [⟨1, ""⟩], [⟨1, "Desert"⟩], 0, 1⟩) ∧
    (updateCategory catOnlyStore 1 JVal.null).1.status = 500 := by
  have h2 := (updateCategory_lax_spec catOnlyStore 1 "").2.1 (by decide)
  have h3 := (updateCategory_lax_spec catOnlyStore 1 "").2.2 (by decide)
    JVal.null (Or.inr rfl)
  exact ⟨by decide, h2, h3.1⟩

/-- Witness for claim C4: on `sampleStore`, whose task 1 exists, the
partial update that supplies only `eta` fails with 500 and changes
nothing. -/
theorem updateTask_undefined_binding_bug_witness :
    (findTask sampleStore 1).isSome = true ∧
    updateTask sampleStore 1 JVal.undef JVal.undef (JVal.str "tomorrow") =
      (⟨500, "TypeError: SQLite3 can only bind numbers, strings, bigints, buffers, and null"⟩,
        sampleStore) :=
  ⟨by decide, updateTask_undefined_binding_bug sampleStore 1 _ _ _
    (by decide) (Or.inl rfl)⟩

/-- Witness for claim C6: setting the theme to Forest on the freshly
initialized store succeeds and reads back as Forest. -/
theorem setTheme_getTheme_roundtrip_witness :
    "Forest" ∈ validThemes ∧
    (setTheme (execReqs initStore []) (.str "Forest")).1 =
      ⟨200, "Ahoy! Theme changed to " ++ "Forest" ++ "."⟩ ∧
    getTheme (setTheme (execReqs initStore []) (.str "Forest")).2 =
      some "Forest" := by
  have h := setTheme_getTheme_roundtrip [] "Forest" (by decide)
  exact ⟨by decide, h.1, h.2⟩

/-- Witness for claim C2: after one valid theme change the config invariant
still holds, and setting the invalid theme Purple is rejected with the
store unchanged. -/
theorem config_singleton_invariant_witness :
    "Purple" ∉ validThemes ∧
    ConfigInv (execReqs initStore [.postTheme (.str "Forest")]) ∧
    setTheme initStore (.str "Purple") = (⟨400, "Invalid theme."⟩, initStore) := by
  have h := config_singleton_invariant [.postTheme (.str "Forest")] initStore
    "Purple" (by decide)
  exact ⟨by decide, h.1, h.2⟩

/-- Witness for claim C3: after `sampleReqs` (task 1 created then deleted),
creating a task returns the fresh id 2, distinct from the previously used
id 1. -/
theorem createTask_spec_witness :
    ((JVal.str "x").falsy || (JVal.str "y").falsy || (JVal.str "z").falsy) = false ∧
    createTask (execReqs initStore sampleReqs) (.str "x") (.str "y") (.str "z") =
      (⟨201, "Task created successfully!"⟩, some 2,
        ⟨[⟨2, "x", "y", "z", none⟩], [], [⟨1, "Desert"⟩], 2, 0⟩) ∧
    (1 : Nat) ≠ 2 := by
  have h := (createTask_spec sampleReqs (.str "x") (.str "y") (.str "z")).2
    (by decide)
  refine ⟨by decide, h.1, ?_⟩
  exact h.2 [.postTask (.str "old task") (.str "gone soon") (.str "yesterday")]
    [.deleteTaskR 1] rfl ⟨1, "old task", "gone soon", "yesterday", none⟩
    (by decide)

/-- Witness for claim C7: with the server key configured and a wrong client
key, the request is rejected with 403 and the store is neither read nor
written. -/
theorem api_key_gate_blocks_store_access_witness :
    gateBlocks (some "s3cret") (some "wrong") = true ∧
    (handleRequest (some "s3cret") (some "wrong") .getThemeR sampleStore).1 =
      (handleRequest (some "s3cret") (some "wrong") .getThemeR initStore).1 ∧
    (handleRequest (some "s3cret") (some "wrong") .getThemeR sampleStore).2 =
      sampleStore ∧
    (handleRequest (some "s3cret") (some "wrong") .getThemeR sampleStore).1 =
      ⟨403, "Forbidden: Invalid API Key."⟩ := by
  have h := api_key_gate_blocks_store_access (some "s3cret") (some "wrong")
    .getThemeR sampleStore initStore (by decide)
  exact ⟨by decide, h.1, h.2.1, h.2.2.2 "s3cret" rfl (by decide)⟩

end Tors
